import Mathlib

/-!
Shallow embedding of `src/MolarAnalyzer.py` (a 3D Slicer plugin widget).

The program's only logic lives in `MolarAnalyzerWidget.onApplyButton`
(validation, reading two landmark coordinates, creating two reference
planes, computing the vertical distance and classifying risk) and in
`MolarAnalyzerWidget.createPlane` (building a fixed-size flat quadrilateral
and installing it in the scene under a name, updating in place when a node
of that name already exists).

Real coordinates from the host are modelled as rationals; the MRML scene is
a list of named model nodes; the results label is a pair of text and
stylesheet strings.  `onApplyButton` additionally returns the list of the
spec's four computation steps it performed, in order, so that temporal
claims about step ordering can be stated.
-/

namespace MolarAnalyzer

/-- A 3D coordinate as read from a markups fiducial control point
(`GetNthControlPointPosition` fills a 3-element list; components 0,1,2). -/
structure Point3 where
  x : ℚ
  y : ℚ
  z : ℚ
deriving DecidableEq, Repr

/-- An RGB color triple, as passed to `SetColor`. -/
abbrev Color := ℚ × ℚ × ℚ

/-- The quadrilateral geometry produced by `vtkPlaneSource` after
`SetOrigin` / `SetPoint1` / `SetPoint2` (lines 175–177 of the source;
these calls override the earlier `SetCenter`/`SetNormal`). -/
structure PlaneGeom where
  origin : Point3
  point1 : Point3
  point2 : Point3
deriving DecidableEq, Repr

/-- Display properties set on the model node's display node
(lines 189–193 of the source). -/
structure DisplayProps where
  color : Color
  opacity : ℚ
  sliceIntersectionVisibility : Bool
  lineWidth : ℚ
deriving DecidableEq, Repr

/-- A `vtkMRMLModelNode` in the scene: a name, its polydata (the plane
geometry once `SetAndObservePolyData` has run) and its display node. -/
structure ModelNode where
  name : String
  geom : Option PlaneGeom
  display : Option DisplayProps
deriving DecidableEq, Repr

/-- A `vtkMRMLMarkupsFiducialNode`: its list of control points. -/
structure FiducialNode where
  controlPoints : List Point3
deriving DecidableEq, Repr

/-- The observable widget state the callback mutates: the results label's
text and stylesheet, and the MRML scene's model nodes. -/
structure WidgetState where
  labelText : String
  labelStyle : String
  scene : List ModelNode
deriving DecidableEq, Repr

/-- The spec's four computation steps, recorded in the order
`onApplyButton` performs them. -/
inductive Event where
  | readCoords : Event
  | createPlaneEv : String → Event
  | computeDiff : Event
  | classify : Event
deriving DecidableEq, Repr

/-- `size = 60.0` (source line 174). -/
def planeSize : ℚ := 60

/-- `slicer.mrmlScene.GetFirstNodeByName(name)` (source line 181):
first node in the scene with the given name. -/
def getFirstNodeByName : List ModelNode → String → Option ModelNode
  | [], _ => none
  | node :: rest, name =>
    if node.name = name then some node else getFirstNodeByName rest name

/-- Replace the first node with the given name in place, leaving the rest
of the scene untouched. -/
def updateFirstNamed (f : ModelNode → ModelNode) :
    List ModelNode → String → List ModelNode
  | [], _ => []
  | node :: rest, name =>
    if node.name = name then f node :: rest
    else node :: updateFirstNamed f rest name

/-- `AddNewNodeByClass("vtkMRMLModelNode", name)` followed by
`CreateDefaultDisplayNodes` (source lines 183–184): a fresh node with the
given name and no polydata yet. -/
def newModelNode (name : String) : ModelNode :=
  { name := name, geom := none, display := none }

/-- The quadrilateral built by `createPlane` for a given center
(source lines 174–177):
`SetOrigin(cx-size, cy-size, cz)`, `SetPoint1(cx+size, cy-size, cz)`,
`SetPoint2(cx-size, cy+size, cz)`. -/
def planeSourceGeom (center : Point3) : PlaneGeom :=
  { origin := ⟨center.x - planeSize, center.y - planeSize, center.z⟩
    point1 := ⟨center.x + planeSize, center.y - planeSize, center.z⟩
    point2 := ⟨center.x - planeSize, center.y + planeSize, center.z⟩ }

/-- The four corner points of the quadrilateral a `vtkPlaneSource` emits:
origin, point1, point2 and the opposite corner
`point1 + point2 - origin`. -/
def PlaneGeom.corners (g : PlaneGeom) : List Point3 :=
  [g.origin, g.point1, g.point2,
   ⟨g.point1.x + g.point2.x - g.origin.x,
    g.point1.y + g.point2.y - g.origin.y,
    g.point1.z + g.point2.z - g.origin.z⟩]

/-- Component-wise difference of two points. -/
def vsub (a b : Point3) : Point3 :=
  ⟨a.x - b.x, a.y - b.y, a.z - b.z⟩

/-- Cross product of two vectors, used to state the effective normal of
the plane spanned by its two edges. -/
def cross (a b : Point3) : Point3 :=
  ⟨a.y * b.z - a.z * b.y, a.z * b.x - a.x * b.z, a.x * b.y - a.y * b.x⟩

/-- The centroid of the quadrilateral's four corners. -/
def quadCenter (g : PlaneGeom) : Point3 :=
  ⟨(g.origin.x + g.point1.x + g.point2.x +
      (g.point1.x + g.point2.x - g.origin.x)) / 4,
   (g.origin.y + g.point1.y + g.point2.y +
      (g.point1.y + g.point2.y - g.origin.y)) / 4,
   (g.origin.z + g.point1.z + g.point2.z +
      (g.point1.z + g.point2.z - g.origin.z)) / 4⟩

/-- Display properties set by `createPlane` (source lines 189–193):
the caller's color, `SetOpacity(0.3)`,
`SetSliceIntersectionVisibility(True)`, `SetLineWidth(3)`. -/
def planeDisplayProps (color : Color) : DisplayProps :=
  { color := color, opacity := 3 / 10,
    sliceIntersectionVisibility := true, lineWidth := 3 }

/-- `SetAndObservePolyData` plus the display-property calls applied to a
node: geometry replaced by the plane for `center`, display replaced. -/
def setPlaneProps (center : Point3) (color : Color) (node : ModelNode) :
    ModelNode :=
  { node with geom := some (planeSourceGeom center),
              display := some (planeDisplayProps color) }

/-- `MolarAnalyzerWidget.createPlane(name, center, color)`
(source lines 165–193) acting on the scene: look the name up; if a node
exists update it in place, otherwise add a fresh node; then install the
plane geometry and display properties on it. -/
def createPlane (scene : List ModelNode) (name : String) (center : Point3)
    (color : Color) : List ModelNode :=
  match getFirstNodeByName scene name with
  | some _ => updateFirstNamed (setPlaneProps center color) scene name
  | none => scene ++ [setPlaneProps center color (newModelNode name)]

/-- Number of nodes in the scene carrying a given name. -/
def countName : List ModelNode → String → Nat
  | [], _ => 0
  | node :: rest, name =>
    (if node.name = name then 1 else 0) + countName rest name

/-- The classification (source lines 152–160): the pair
`(risk_class, color)` chosen by `if diff < 2.0 / elif diff < 5.0 / else`. -/
def classifyRisk (diff : ℚ) : String × String :=
  if diff < 2 then ("HIGH COMPLEXITY (Red)", "#ffcccc")
  else if diff < 5 then ("MODERATE COMPLEXITY (Amber)", "#fff4cc")
  else ("LOW COMPLEXITY (White)", "#ccffcc")

/-- The `risk_class` string assigned to a z-difference. -/
def riskClass (diff : ℚ) : String := (classifyRisk diff).1

/-- The label background color assigned to a z-difference. -/
def riskColor (diff : ℚ) : String := (classifyRisk diff).2

/-- `[1, 0.6, 0]`, the Amber plane color (source line 141). -/
def amberColor : Color := (1, 3 / 5, 0)

/-- `[1, 0, 0]`, the Red plane color (source line 142). -/
def redColor : Color := (1, 0, 0)

/-- The missing-selection error text (source line 124). -/
def selectionErrorText : String :=
  "Error: Please select Segmentation, Bone Point, and Nerve Point!"

/-- The stylesheet applied on the missing-selection error
(source line 125). -/
def selectionErrorStyle : String :=
  "background-color: #ffcccc; color: red; font-weight: bold;"

/-- The missing-points error text (source line 134); note the source sets
no stylesheet on this path. -/
def placePointsErrorText : String :=
  "Error: Place points on the image first!"

/-- The success label text (source line 162).  The f-string's two-decimal
float rendering of `diff` is abstracted to the exact rational's `toString`;
no claim depends on the numeric text. -/
def successLabelText (diff : ℚ) : String :=
  "Surgical Depth: " ++ toString diff ++ " mm\nPrediction: " ++ riskClass diff

/-- The success stylesheet (source line 163), parametrised by the
classification's background color. -/
def successLabelStyle (diff : ℚ) : String :=
  "background-color: " ++ riskColor diff ++
    "; font-weight: bold; padding: 10px; border: 2px solid black;"

/-- The label state installed by `setup` (source lines 96–98). -/
def initialState : WidgetState :=
  { labelText := "Ready for Analysis"
    labelStyle :=
      "border: 1px solid gray; padding: 10px; background-color: #f0f0f0;"
    scene := [] }

/-- `MolarAnalyzerWidget.onApplyButton` (source lines 117–163).
`segNode` is `some ()` when a segmentation node is selected (the node
itself is never used beyond the truthiness check); `boneNode` and
`nerveNode` are the selected fiducial nodes, `none` when unselected.
Returns the updated widget state together with the ordered list of
computation steps performed. -/
def onApplyButton (segNode : Option Unit)
    (boneNode nerveNode : Option FiducialNode) (st : WidgetState) :
    WidgetState × List Event :=
  match segNode, boneNode, nerveNode with
  | some _, some boneN, some nerveN =>
    if boneN.controlPoints.length < 1 ∨ nerveN.controlPoints.length < 1 then
      ({ st with labelText := placePointsErrorText }, [])
    else
      let pos_bone := boneN.controlPoints.headD ⟨0, 0, 0⟩
      let pos_nerve := nerveN.controlPoints.headD ⟨0, 0, 0⟩
      let scene1 := createPlane st.scene "Amber_Line_Plane" pos_bone amberColor
      let scene2 := createPlane scene1 "Red_Line_Plane" pos_nerve redColor
      let diff := |pos_bone.z - pos_nerve.z|
      ({ labelText := successLabelText diff
         labelStyle := successLabelStyle diff
         scene := scene2 },
       [Event.readCoords, Event.createPlaneEv "Amber_Line_Plane",
        Event.createPlaneEv "Red_Line_Plane", Event.computeDiff,
        Event.classify])
  | _, _, _ =>
    ({ st with labelText := selectionErrorText,
               labelStyle := selectionErrorStyle }, [])

/-! ### Scene lemmas about `createPlane` -/

/-- `setPlaneProps` does not change a node's name. -/
lemma setPlaneProps_name (c : Point3) (col : Color) (node : ModelNode) :
    (setPlaneProps c col node).name = node.name := rfl

/-- Updating the first node of a name whose update preserves names keeps
the lookup result, now updated. -/
lemma getFirst_updateFirstNamed_self (f : ModelNode → ModelNode)
    (hf : ∀ node, (f node).name = node.name) (s : List ModelNode)
    (name : String) (n : ModelNode) (h : getFirstNodeByName s name = some n) :
    getFirstNodeByName (updateFirstNamed f s name) name = some (f n) := by
  induction s with
  | nil => simp [getFirstNodeByName] at h
  | cons head tail ih =>
    by_cases hh : head.name = name
    · simp only [getFirstNodeByName, if_pos hh] at h
      cases h
      simp [updateFirstNamed, getFirstNodeByName, hh, hf]
    · simp only [getFirstNodeByName, if_neg hh] at h
      simp [updateFirstNamed, getFirstNodeByName, hh, ih h]

/-- Updating the first node of one name leaves lookups of any other name
unchanged, provided the update preserves names. -/
lemma getFirst_updateFirstNamed_other (f : ModelNode → ModelNode)
    (hf : ∀ node, (f node).name = node.name) (s : List ModelNode)
    (name other : String) (h : other ≠ name) :
    getFirstNodeByName (updateFirstNamed f s name) other =
      getFirstNodeByName s other := by
  induction s with
  | nil => simp [updateFirstNamed]
  | cons head tail ih =>
    by_cases hh : head.name = name
    · have hfo : ¬(f head).name = other := by
        rw [hf, hh]; exact fun he => h he.symm
      have hho : ¬head.name = other := by
        rw [hh]; exact fun he => h he.symm
      simp [updateFirstNamed, getFirstNodeByName, hh, hfo, hho, Ne.symm h]
    · simp [updateFirstNamed, getFirstNodeByName, hh, ih]

/-- Appending a single node to a scene that lacks a name makes lookup of
that name find the appended node exactly when it bears the name. -/
lemma getFirst_append_single (s : List ModelNode) (name : String)
    (x : ModelNode) (h : getFirstNodeByName s name = none) :
    getFirstNodeByName (s ++ [x]) name =
      if x.name = name then some x else none := by
  induction s with
  | nil => simp [getFirstNodeByName]
  | cons head tail ih =>
    by_cases hh : head.name = name
    · simp [getFirstNodeByName, hh] at h
    · simp only [getFirstNodeByName, if_neg hh] at h
      simp [getFirstNodeByName, hh, ih h]

/-- Appending a single node bearing a different name leaves lookups of
the other name unchanged. -/
lemma getFirst_append_single_other (s : List ModelNode) (other : String)
    (x : ModelNode) (hx : x.name ≠ other) :
    getFirstNodeByName (s ++ [x]) other = getFirstNodeByName s other := by
  induction s with
  | nil => simp [getFirstNodeByName, hx]
  | cons head tail ih =>
    by_cases ho : head.name = other
    · simp [getFirstNodeByName, ho]
    · simp [getFirstNodeByName, ho, ih]

/-- After `createPlane`, looking the plane's name up finds a node carrying
the plane geometry for that center and the display properties for that
color. -/
lemma createPlane_find_self (s : List ModelNode) (name : String)
    (c : Point3) (col : Color) :
    ∃ n, getFirstNodeByName (createPlane s name c col) name = some n ∧
      n.geom = some (planeSourceGeom c) ∧
      n.display = some (planeDisplayProps col) := by
  cases hfind : getFirstNodeByName s name with
  | some n0 =>
    refine ⟨setPlaneProps c col n0, ?_, rfl, rfl⟩
    unfold createPlane
    rw [hfind]
    exact getFirst_updateFirstNamed_self (setPlaneProps c col)
      (fun _ => rfl) s name n0 hfind
  | none =>
    refine ⟨setPlaneProps c col (newModelNode name), ?_, rfl, rfl⟩
    unfold createPlane
    rw [hfind, getFirst_append_single s name _ hfind]
    simp [setPlaneProps, newModelNode]

/-- `createPlane` under one name leaves lookups of any other name
unchanged. -/
lemma createPlane_find_other (s : List ModelNode) (name other : String)
    (c : Point3) (col : Color) (h : other ≠ name) :
    getFirstNodeByName (createPlane s name c col) other =
      getFirstNodeByName s other := by
  cases hfind : getFirstNodeByName s name with
  | some n0 =>
    unfold createPlane
    rw [hfind]
    exact getFirst_updateFirstNamed_other (setPlaneProps c col)
      (fun _ => rfl) s name other h
  | none =>
    unfold createPlane
    rw [hfind]
    exact getFirst_append_single_other s other _ (Ne.symm h)

/-- Every corner of the plane built for a center sits at the center's
height. -/
lemma planeSourceGeom_corners_z (c : Point3) :
    ∀ p ∈ (planeSourceGeom c).corners, p.z = c.z := by
  intro p hp
  simp only [planeSourceGeom, PlaneGeom.corners, List.mem_cons,
    List.mem_singleton, List.not_mem_nil, or_false] at hp
  rcases hp with h | h | h | h
  · subst h; rfl
  · subst h; rfl
  · subst h; rfl
  · subst h
    show c.z + c.z - c.z = c.z
    ring

/-- An in-place update that preserves names leaves the scene's list of
node names (hence its length and node count) unchanged. -/
lemma updateFirstNamed_map_name (f : ModelNode → ModelNode)
    (hf : ∀ node, (f node).name = node.name) (s : List ModelNode)
    (name : String) :
    (updateFirstNamed f s name).map ModelNode.name =
      s.map ModelNode.name := by
  induction s with
  | nil => rfl
  | cons head tail ih =>
    by_cases hh : head.name = name
    · simp [updateFirstNamed, hh, hf]
    · simp [updateFirstNamed, hh, ih]

/-- An in-place update that preserves names does not change how many nodes
bear any given name. -/
lemma countName_updateFirstNamed (f : ModelNode → ModelNode)
    (hf : ∀ node, (f node).name = node.name) (s : List ModelNode)
    (name other : String) :
    countName (updateFirstNamed f s name) other = countName s other := by
  induction s with
  | nil => rfl
  | cons head tail ih =>
    by_cases hh : head.name = name
    · simp [updateFirstNamed, countName, hh, hf]
    · simp [updateFirstNamed, countName, hh, ih]

/-- `countName` distributes over appending scenes. -/
lemma countName_append (s t : List ModelNode) (n : String) :
    countName (s ++ t) n = countName s n + countName t n := by
  induction s with
  | nil => simp [countName]
  | cons head tail ih =>
    show (if head.name = n then 1 else 0) + countName (tail ++ t) n = _
    rw [ih]
    simp only [countName]
    omega

/-- A name that lookup does not find occurs zero times in the scene. -/
lemma countName_eq_zero_of_find_none (s : List ModelNode) (name : String)
    (h : getFirstNodeByName s name = none) : countName s name = 0 := by
  induction s with
  | nil => rfl
  | cons head tail ih =>
    by_cases hh : head.name = name
    · simp [getFirstNodeByName, hh] at h
    · simp only [getFirstNodeByName, if_neg hh] at h
      simp [countName, hh, ih h]

/-! ### Path reductions of `onApplyButton` -/

/-- With any selection missing, `onApplyButton` takes the first validation
branch: set the error text and the red error stylesheet, touch nothing
else, perform no computation step. -/
lemma onApply_missing_selection (seg : Option Unit)
    (bone nerve : Option FiducialNode) (st : WidgetState)
    (h : seg = none ∨ bone = none ∨ nerve = none) :
    onApplyButton seg bone nerve st =
      ({ st with labelText := selectionErrorText,
                 labelStyle := selectionErrorStyle }, []) := by
  rcases seg with _ | u <;> rcases bone with _ | b <;> rcases nerve with _ | n <;>
    first
      | rfl
      | simp at h

/-- With all selections present but a landmark node empty, `onApplyButton`
takes the second validation branch: set the error text only, touch nothing
else, perform no computation step. -/
lemma onApply_missing_points (boneN nerveN : FiducialNode)
    (st : WidgetState)
    (h : boneN.controlPoints.length < 1 ∨ nerveN.controlPoints.length < 1) :
    onApplyButton (some ()) (some boneN) (some nerveN) st =
      ({ st with labelText := placePointsErrorText }, []) := by
  simp only [onApplyButton]
  rw [if_pos h]

/-- With all selections present and both landmark nodes holding at least
one control point, `onApplyButton` reads the first control points, builds
the Amber then the Red plane, and labels the classification of the
absolute z-difference, recording the steps in that order. -/
lemma onApply_success (boneN nerveN : FiducialNode) (st : WidgetState)
    (hb : 1 ≤ boneN.controlPoints.length)
    (hn : 1 ≤ nerveN.controlPoints.length) :
    onApplyButton (some ()) (some boneN) (some nerveN) st =
      ({ labelText := successLabelText
           |(boneN.controlPoints.headD ⟨0, 0, 0⟩).z -
             (nerveN.controlPoints.headD ⟨0, 0, 0⟩).z|
         labelStyle := successLabelStyle
           |(boneN.controlPoints.headD ⟨0, 0, 0⟩).z -
             (nerveN.controlPoints.headD ⟨0, 0, 0⟩).z|
         scene := createPlane
           (createPlane st.scene "Amber_Line_Plane"
             (boneN.controlPoints.headD ⟨0, 0, 0⟩) amberColor)
           "Red_Line_Plane" (nerveN.controlPoints.headD ⟨0, 0, 0⟩)
           redColor },
       [Event.readCoords, Event.createPlaneEv "Amber_Line_Plane",
        Event.createPlaneEv "Red_Line_Plane", Event.computeDiff,
        Event.classify]) := by
  simp only [onApplyButton]
  rw [if_neg (by omega)]

/-! ### Claim theorems -/

/-- C1: the risk classification assigns exactly one tier to every real
z-difference `d`: the high tier when `d < 2.0`, the moderate tier when
`2.0 ≤ d < 5.0`, the low tier when `d ≥ 5.0`; in particular the boundary
values `d = 2.0` and `d = 5.0` map to the moderate and low tiers. -/
theorem C1_risk_tiers (d : ℚ) :
    (d < 2 → riskClass d = "HIGH COMPLEXITY (Red)") ∧
    (2 ≤ d → d < 5 → riskClass d = "MODERATE COMPLEXITY (Amber)") ∧
    (5 ≤ d → riskClass d = "LOW COMPLEXITY (White)") ∧
    riskClass 2 = "MODERATE COMPLEXITY (Amber)" ∧
    riskClass 5 = "LOW COMPLEXITY (White)" := by
  refine ⟨?_, ?_, ?_, ?_, ?_⟩
  · intro h
    simp [riskClass, classifyRisk, h]
  · intro h1 h2
    simp [riskClass, classifyRisk, not_lt.mpr h1, h2]
  · intro h
    have h2 : ¬d < 2 := not_lt.mpr (le_trans (by norm_num) h)
    simp [riskClass, classifyRisk, h2, not_lt.mpr h]
  · norm_num [riskClass, classifyRisk]
  · norm_num [riskClass, classifyRisk]

/-- Witness for C1 at the concrete differences 1, 3 and 7. -/
theorem C1_risk_tiers_witness :
    riskClass 1 = "HIGH COMPLEXITY (Red)" ∧
    riskClass 3 = "MODERATE COMPLEXITY (Amber)" ∧
    riskClass 7 = "LOW COMPLEXITY (White)" :=
  ⟨(C1_risk_tiers 1).1 (by norm_num),
   (C1_risk_tiers 3).2.1 (by norm_num) (by norm_num),
   (C1_risk_tiers 7).2.2.1 (by norm_num)⟩

/-- C2: on the success path the distance shown and fed to the classifier
is exactly the absolute difference of the two landmark points' third (z)
components. -/
theorem C2_distance_is_abs_z_diff (boneN nerveN : FiducialNode)
    (st : WidgetState) (hb : 1 ≤ boneN.controlPoints.length)
    (hn : 1 ≤ nerveN.controlPoints.length) :
    (onApplyButton (some ()) (some boneN) (some nerveN) st).1.labelText =
      successLabelText
        |(boneN.controlPoints.headD ⟨0, 0, 0⟩).z -
          (nerveN.controlPoints.headD ⟨0, 0, 0⟩).z| ∧
    (onApplyButton (some ()) (some boneN) (some nerveN) st).1.labelStyle =
      successLabelStyle
        |(boneN.controlPoints.headD ⟨0, 0, 0⟩).z -
          (nerveN.controlPoints.headD ⟨0, 0, 0⟩).z| := by
  rw [onApply_success boneN nerveN st hb hn]
  exact ⟨rfl, rfl⟩

/-- Witness for C2: bone point at z = 3, nerve point at z = 1. -/
theorem C2_distance_is_abs_z_diff_witness :
    (onApplyButton (some ()) (some ⟨[⟨0, 0, 3⟩]⟩) (some ⟨[⟨0, 0, 1⟩]⟩)
        initialState).1.labelText =
      successLabelText |((⟨0, 0, 3⟩ : Point3)).z - ((⟨0, 0, 1⟩ : Point3)).z| ∧
    (onApplyButton (some ()) (some ⟨[⟨0, 0, 3⟩]⟩) (some ⟨[⟨0, 0, 1⟩]⟩)
        initialState).1.labelStyle =
      successLabelStyle
        |((⟨0, 0, 3⟩ : Point3)).z - ((⟨0, 0, 1⟩ : Point3)).z| :=
  C2_distance_is_abs_z_diff ⟨[⟨0, 0, 3⟩]⟩ ⟨[⟨0, 0, 1⟩]⟩ initialState
    (by decide) (by decide)

/-- C3: with any of the three selections missing, the run only sets the
status label's error text (and error styling) and returns: the scene is
unchanged and no computation step — no read, no plane, no distance, no
classification — is performed. -/
theorem C3_missing_selection_aborts (seg : Option Unit)
    (bone nerve : Option FiducialNode) (st : WidgetState)
    (h : seg = none ∨ bone = none ∨ nerve = none) :
    (onApplyButton seg bone nerve st).1.labelText = selectionErrorText ∧
    (onApplyButton seg bone nerve st).1.scene = st.scene ∧
    (onApplyButton seg bone nerve st).2 = [] := by
  rw [onApply_missing_selection seg bone nerve st h]
  exact ⟨rfl, rfl, rfl⟩

/-- Witness for C3: no selection at all. -/
theorem C3_missing_selection_aborts_witness :
    (onApplyButton none none none initialState).1.labelText =
      selectionErrorText ∧
    (onApplyButton none none none initialState).1.scene =
      initialState.scene ∧
    (onApplyButton none none none initialState).2 = [] :=
  C3_missing_selection_aborts none none none initialState (Or.inl rfl)

/-- C4: with all selections present but a landmark node holding zero
control points, the run only sets the status label's error text and
returns: the scene is unchanged and no computation step — no plane, no
distance, no classification — is performed. -/
theorem C4_missing_points_aborts (boneN nerveN : FiducialNode)
    (st : WidgetState)
    (h : boneN.controlPoints = [] ∨ nerveN.controlPoints = []) :
    (onApplyButton (some ()) (some boneN) (some nerveN) st).1.labelText =
      placePointsErrorText ∧
    (onApplyButton (some ()) (some boneN) (some nerveN) st).1.scene =
      st.scene ∧
    (onApplyButton (some ()) (some boneN) (some nerveN) st).2 = [] := by
  rw [onApply_missing_points boneN nerveN st
    (by rcases h with h | h <;> simp [h])]
  exact ⟨rfl, rfl, rfl⟩

/-- Witness for C4: both landmark nodes selected but empty. -/
theorem C4_missing_points_aborts_witness :
    (onApplyButton (some ()) (some ⟨[]⟩) (some ⟨[]⟩)
        initialState).1.labelText = placePointsErrorText ∧
    (onApplyButton (some ()) (some ⟨[]⟩) (some ⟨[]⟩)
        initialState).1.scene = initialState.scene ∧
    (onApplyButton (some ()) (some ⟨[]⟩) (some ⟨[]⟩)
        initialState).2 = [] :=
  C4_missing_points_aborts ⟨[]⟩ ⟨[]⟩ initialState (Or.inl rfl)

/-- C5: after every successful run the Amber_Line_Plane node's
quadrilateral has all four corners at the bone point's z coordinate and
the Red_Line_Plane node's quadrilateral has all four corners at the nerve
point's z coordinate, as most recently read. -/
theorem C5_plane_heights (boneN nerveN : FiducialNode) (st : WidgetState)
    (hb : 1 ≤ boneN.controlPoints.length)
    (hn : 1 ≤ nerveN.controlPoints.length) :
    ∃ na nr,
      getFirstNodeByName
          (onApplyButton (some ()) (some boneN) (some nerveN) st).1.scene
          "Amber_Line_Plane" = some na ∧
      na.geom = some (planeSourceGeom (boneN.controlPoints.headD ⟨0, 0, 0⟩)) ∧
      (∀ g, na.geom = some g → ∀ p ∈ g.corners,
        p.z = (boneN.controlPoints.headD ⟨0, 0, 0⟩).z) ∧
      getFirstNodeByName
          (onApplyButton (some ()) (some boneN) (some nerveN) st).1.scene
          "Red_Line_Plane" = some nr ∧
      nr.geom = some (planeSourceGeom (nerveN.controlPoints.headD ⟨0, 0, 0⟩)) ∧
      (∀ g, nr.geom = some g → ∀ p ∈ g.corners,
        p.z = (nerveN.controlPoints.headD ⟨0, 0, 0⟩).z) := by
  rw [onApply_success boneN nerveN st hb hn]
  obtain ⟨nr, hfr, hgr, -⟩ := createPlane_find_self
    (createPlane st.scene "Amber_Line_Plane"
      (boneN.controlPoints.headD ⟨0, 0, 0⟩) amberColor)
    "Red_Line_Plane" (nerveN.controlPoints.headD ⟨0, 0, 0⟩) redColor
  obtain ⟨na, hfa, hga, -⟩ := createPlane_find_self st.scene
    "Amber_Line_Plane" (boneN.controlPoints.headD ⟨0, 0, 0⟩) amberColor
  refine ⟨na, nr, ?_, hga, ?_, hfr, hgr, ?_⟩
  · rw [createPlane_find_other _ _ _ _ _ (by decide)]
    exact hfa
  · intro g hg p hp
    rw [hga] at hg
    cases hg
    exact planeSourceGeom_corners_z _ p hp
  · intro g hg p hp
    rw [hgr] at hg
    cases hg
    exact planeSourceGeom_corners_z _ p hp

/-- Witness for C5: bone point at z = 4, nerve point at z = 1, empty
scene. -/
theorem C5_plane_heights_witness :
    ∃ na nr,
      getFirstNodeByName
          (onApplyButton (some ()) (some ⟨[⟨0, 0, 4⟩]⟩)
            (some ⟨[⟨0, 0, 1⟩]⟩) initialState).1.scene
          "Amber_Line_Plane" = some na ∧
      na.geom = some (planeSourceGeom
        ((⟨[⟨0, 0, 4⟩]⟩ : FiducialNode).controlPoints.headD ⟨0, 0, 0⟩)) ∧
      (∀ g, na.geom = some g → ∀ p ∈ g.corners,
        p.z = ((⟨[⟨0, 0, 4⟩]⟩ : FiducialNode).controlPoints.headD
          ⟨0, 0, 0⟩).z) ∧
      getFirstNodeByName
          (onApplyButton (some ()) (some ⟨[⟨0, 0, 4⟩]⟩)
            (some ⟨[⟨0, 0, 1⟩]⟩) initialState).1.scene
          "Red_Line_Plane" = some nr ∧
      nr.geom = some (planeSourceGeom
        ((⟨[⟨0, 0, 1⟩]⟩ : FiducialNode).controlPoints.headD ⟨0, 0, 0⟩)) ∧
      (∀ g, nr.geom = some g → ∀ p ∈ g.corners,
        p.z = ((⟨[⟨0, 0, 1⟩]⟩ : FiducialNode).controlPoints.headD
          ⟨0, 0, 0⟩).z) :=
  C5_plane_heights ⟨[⟨0, 0, 4⟩]⟩ ⟨[⟨0, 0, 1⟩]⟩ initialState
    (by decide) (by decide)

/-- C6: installing a plane under a name that already exists in the scene
updates that node in place — the scene's name list, hence its node count,
is unchanged — while a new node is appended only when no node of that name
exists, so repeated runs never accumulate duplicates. -/
theorem C6_install_no_duplicates (s : List ModelNode) (name : String)
    (c : Point3) (col : Color) :
    ((getFirstNodeByName s name).isSome →
      (createPlane s name c col).map ModelNode.name =
        s.map ModelNode.name ∧
      countName (createPlane s name c col) name = countName s name) ∧
    (getFirstNodeByName s name = none →
      countName s name = 0 ∧
      countName (createPlane s name c col) name = 1 ∧
      createPlane s name c col =
        s ++ [setPlaneProps c col (newModelNode name)]) := by
  constructor
  · intro hs
    obtain ⟨n0, hn0⟩ := Option.isSome_iff_exists.mp hs
    unfold createPlane
    rw [hn0]
    exact ⟨updateFirstNamed_map_name (setPlaneProps c col)
        (fun _ => rfl) s name,
      countName_updateFirstNamed (setPlaneProps c col)
        (fun _ => rfl) s name name⟩
  · intro hnone
    unfold createPlane
    rw [hnone]
    refine ⟨countName_eq_zero_of_find_none s name hnone, ?_, rfl⟩
    rw [countName_append, countName_eq_zero_of_find_none s name hnone]
    simp [countName, setPlaneProps, newModelNode]

/-- Witness for C6: a first install into the empty scene appends one node;
a second install under the same name updates it in place. -/
theorem C6_install_no_duplicates_witness :
    (countName [] "Amber_Line_Plane" = 0 ∧
     countName (createPlane [] "Amber_Line_Plane" ⟨0, 0, 0⟩ amberColor)
       "Amber_Line_Plane" = 1 ∧
     createPlane [] "Amber_Line_Plane" ⟨0, 0, 0⟩ amberColor =
       [] ++ [setPlaneProps ⟨0, 0, 0⟩ amberColor
         (newModelNode "Amber_Line_Plane")]) ∧
    ((createPlane [setPlaneProps ⟨0, 0, 0⟩ amberColor
        (newModelNode "Amber_Line_Plane")] "Amber_Line_Plane" ⟨0, 0, 7⟩
        amberColor).map ModelNode.name =
      [setPlaneProps ⟨0, 0, 0⟩ amberColor
        (newModelNode "Amber_Line_Plane")].map ModelNode.name ∧
     countName (createPlane [setPlaneProps ⟨0, 0, 0⟩ amberColor
        (newModelNode "Amber_Line_Plane")] "Amber_Line_Plane" ⟨0, 0, 7⟩
        amberColor) "Amber_Line_Plane" =
      countName [setPlaneProps ⟨0, 0, 0⟩ amberColor
        (newModelNode "Amber_Line_Plane")] "Amber_Line_Plane") :=
  ⟨(C6_install_no_duplicates [] "Amber_Line_Plane" ⟨0, 0, 0⟩ amberColor).2
      rfl,
   (C6_install_no_duplicates
      [setPlaneProps ⟨0, 0, 0⟩ amberColor (newModelNode "Amber_Line_Plane")]
      "Amber_Line_Plane" ⟨0, 0, 7⟩ amberColor).1 (by decide)⟩

/-- C7: for every center point the constructed quadrilateral is a flat
rectangle of fixed size 120 × 120 (edges along the x and y axes), centered
at that point, with effective normal along the vertical z axis, and the
display carries the caller's color and the fixed input-independent opacity
0.3. -/
theorem C7_plane_shape (c : Point3) (col : Color) :
    vsub (planeSourceGeom c).point1 (planeSourceGeom c).origin =
      ⟨2 * planeSize, 0, 0⟩ ∧
    vsub (planeSourceGeom c).point2 (planeSourceGeom c).origin =
      ⟨0, 2 * planeSize, 0⟩ ∧
    quadCenter (planeSourceGeom c) = c ∧
    cross (vsub (planeSourceGeom c).point1 (planeSourceGeom c).origin)
        (vsub (planeSourceGeom c).point2 (planeSourceGeom c).origin) =
      ⟨0, 0, 2 * planeSize * (2 * planeSize)⟩ ∧
    (planeDisplayProps col).color = col ∧
    (planeDisplayProps col).opacity = 3 / 10 := by
  obtain ⟨cx, cy, cz⟩ := c
  refine ⟨?_, ?_, ?_, ?_, rfl, rfl⟩ <;>
    simp only [planeSourceGeom, vsub, cross, quadCenter, planeSize,
      Point3.mk.injEq] <;>
    refine ⟨by ring, by ring, by ring⟩

/-- C8 counterexample: on a concrete successful run the Amber plane is
created or updated strictly before the z-difference is computed (and
before classification), contradicting the claimed order in which the
surfaces come only after steps (b) and (c). -/
theorem C8_counterexample :
    (onApplyButton (some ()) (some ⟨[⟨0, 0, 0⟩]⟩) (some ⟨[⟨0, 0, 10⟩]⟩)
        initialState).2.indexOf (Event.createPlaneEv "Amber_Line_Plane") <
      (onApplyButton (some ()) (some ⟨[⟨0, 0, 0⟩]⟩) (some ⟨[⟨0, 0, 10⟩]⟩)
        initialState).2.indexOf Event.computeDiff ∧
    Event.createPlaneEv "Amber_Line_Plane" ∈
      (onApplyButton (some ()) (some ⟨[⟨0, 0, 0⟩]⟩) (some ⟨[⟨0, 0, 10⟩]⟩)
        initialState).2 ∧
    Event.computeDiff ∈
      (onApplyButton (some ()) (some ⟨[⟨0, 0, 0⟩]⟩) (some ⟨[⟨0, 0, 10⟩]⟩)
        initialState).2 := by
  decide

/-- C8 (amended): on every successful run the steps occur in the order
(a) read the two 3D coordinates, then (d) create or update the two
rendering surfaces, then (b) compute the absolute z-difference, then
(c) bucket it into a risk tier. -/
theorem C8_amended_order (boneN nerveN : FiducialNode) (st : WidgetState)
    (hb : 1 ≤ boneN.controlPoints.length)
    (hn : 1 ≤ nerveN.controlPoints.length) :
    (onApplyButton (some ()) (some boneN) (some nerveN) st).2 =
      [Event.readCoords, Event.createPlaneEv "Amber_Line_Plane",
       Event.createPlaneEv "Red_Line_Plane", Event.computeDiff,
       Event.classify] := by
  rw [onApply_success boneN nerveN st hb hn]

/-- Witness for the amended C8 at a concrete successful run. -/
theorem C8_amended_order_witness :
    (onApplyButton (some ()) (some ⟨[⟨0, 0, 2⟩]⟩) (some ⟨[⟨0, 0, 9⟩]⟩)
        initialState).2 =
      [Event.readCoords, Event.createPlaneEv "Amber_Line_Plane",
       Event.createPlaneEv "Red_Line_Plane", Event.computeDiff,
       Event.classify] :=
  C8_amended_order ⟨[⟨0, 0, 2⟩]⟩ ⟨[⟨0, 0, 9⟩]⟩ initialState
    (by decide) (by decide)

/-- C9: the computed distance and the risk classification are symmetric
in the two landmark points: swapping bone and nerve yields the same
distance and the same risk tier. -/
theorem C9_swap_symmetric (pb pn : Point3) :
    |pb.z - pn.z| = |pn.z - pb.z| ∧
    riskClass |pb.z - pn.z| = riskClass |pn.z - pb.z| := by
  have h : |pb.z - pn.z| = |pn.z - pb.z| := abs_sub_comm _ _
  exact ⟨h, by rw [h]⟩

/-- C10: the two validation failures differ at the label: a missing
selection sets both the error text and the red error stylesheet, while
missing points changes only the text and leaves the previously applied
stylesheet unchanged. -/
theorem C10_error_paths_styling (seg : Option Unit)
    (bone nerve : Option FiducialNode) (boneN nerveN : FiducialNode)
    (st : WidgetState) (hsel : seg = none ∨ bone = none ∨ nerve = none)
    (hpts : boneN.controlPoints = [] ∨ nerveN.controlPoints = []) :
    (onApplyButton seg bone nerve st).1.labelText = selectionErrorText ∧
    (onApplyButton seg bone nerve st).1.labelStyle = selectionErrorStyle ∧
    (onApplyButton (some ()) (some boneN) (some nerveN) st).1.labelText =
      placePointsErrorText ∧
    (onApplyButton (some ()) (some boneN) (some nerveN) st).1.labelStyle =
      st.labelStyle := by
  rw [onApply_missing_selection seg bone nerve st hsel,
    onApply_missing_points boneN nerveN st
      (by rcases hpts with h | h <;> simp [h])]
  exact ⟨rfl, rfl, rfl, rfl⟩

/-- Witness for C10: missing nerve selection on one run, empty landmark
nodes on the other; the initial label stylesheet survives the second. -/
theorem C10_error_paths_styling_witness :
    (onApplyButton (some ()) (some ⟨[⟨0, 0, 1⟩]⟩) none
        initialState).1.labelText = selectionErrorText ∧
    (onApplyButton (some ()) (some ⟨[⟨0, 0, 1⟩]⟩) none
        initialState).1.labelStyle = selectionErrorStyle ∧
    (onApplyButton (some ()) (some ⟨[]⟩) (some ⟨[]⟩)
        initialState).1.labelText = placePointsErrorText ∧
    (onApplyButton (some ()) (some ⟨[]⟩) (some ⟨[]⟩)
        initialState).1.labelStyle = initialState.labelStyle :=
  C10_error_paths_styling (some ()) (some ⟨[⟨0, 0, 1⟩]⟩) none ⟨[]⟩ ⟨[]⟩
    initialState (Or.inr (Or.inr rfl)) (Or.inl rfl)

end MolarAnalyzer
